import Mathlib

/-!
Verification of the FMS Log Nexus Python SDK (`fmslognexus`): a shallow
embedding of `models.py`, `exceptions.py` and `client.py` together with
theorems settling the specification claims about deserialization, the
HTTP error taxonomy, request building and authentication state.

JSON values are modelled by the inductive `Json`; Python `None` is
`Json.null`, so `dict.get` returning `None` and a stored JSON `null` are
identified, exactly as in the CPython runtime. Python truthiness of a
JSON value is `Json.truthy`. Fallible Python code (an uncaught
`ValueError` / `AttributeError` / `TypeError`) is modelled with `Option`
or `Except PyErr`.
-/

/-- A JSON value as produced by `response.json()`. Numbers are modelled as
integers, which covers every numeric literal appearing in the claims. -/
inductive Json where
  | null : Json
  | bool : Bool → Json
  | num : Int → Json
  | str : String → Json
  | arr : List Json → Json
  | obj : List (String × Json) → Json

/-- Python exception kinds that escape the SDK without being part of the
FMS error taxonomy. -/
inductive PyErr where
  | attributeError : PyErr
  | valueError : PyErr
  | typeError : PyErr
deriving DecidableEq

/-- Python truthiness of a JSON value (`bool(x)`). -/
def Json.truthy : Json → Bool
  | .null => false
  | .bool b => b
  | .num n => n != 0
  | .str s => s != ""
  | .arr l => !l.isEmpty
  | .obj kvs => !kvs.isEmpty

/-- Association-list lookup, modelling Python `dict` access: first (only)
binding of the key wins. -/
def alookup {β : Type} : List (String × β) → String → Option β
  | [], _ => none
  | (k, v) :: rest, key => if k = key then some v else alookup rest key

/-- Python `data.get(key, default)` on a JSON object: the stored value —
even a stored `null` — is returned when the key is present. -/
def getJsonD (kvs : List (String × Json)) (key : String) (d : Json) : Json :=
  (alookup kvs key).getD d

/-- Python `a or b` specialised to JSON values (used by
`ValidationError.__init__`: `errors or` the empty object). -/
def pyOr (a b : Json) : Json := if a.truthy then a else b

/-- A wall-clock timestamp as produced by date parsing; `utc` records the
presence of a UTC offset (`Z` suffix). -/
structure DateTime where
  year : Nat
  month : Nat
  day : Nat
  hour : Nat
  minute : Nat
  second : Nat
  microsecond : Nat
  utc : Bool
deriving DecidableEq

/-- Numeric value of a list of decimal digit characters. -/
def digitsVal (cs : List Char) : Nat :=
  cs.foldl (fun a c => a * 10 + (c.toNat - 48)) 0

/-- All characters are decimal digits. -/
def allDigits (cs : List Char) : Bool := cs.all Char.isDigit

/-- Modelled from the spec: the third-party `dateutil.parser.parse`
routine (not part of this repository) on the subset the spec promises:
ISO-8601 text `YYYY-MM-DD[THH:MM:SS[.ffffff]]`, optionally with a `Z`
UTC suffix; anything else fails. -/
def parseDate (s : String) : Option DateTime :=
  let cs0 := s.toList
  let utc := cs0.getLast? = some 'Z'
  let cs := if utc then cs0.dropLast else cs0
  match cs with
  | y1 :: y2 :: y3 :: y4 :: '-' :: m1 :: m2 :: '-' :: d1 :: d2 :: rest =>
    if allDigits [y1, y2, y3, y4, m1, m2, d1, d2] then
      let y := digitsVal [y1, y2, y3, y4]
      let mo := digitsVal [m1, m2]
      let d := digitsVal [d1, d2]
      if 1 ≤ mo ∧ mo ≤ 12 ∧ 1 ≤ d ∧ d ≤ 31 then
        match rest with
        | [] => if utc then none else some ⟨y, mo, d, 0, 0, 0, 0, false⟩
        | t :: h1 :: h2 :: ':' :: n1 :: n2 :: ':' :: s1 :: s2 :: rest2 =>
          if (t = 'T' ∨ t = ' ') ∧ allDigits [h1, h2, n1, n2, s1, s2] then
            let hh := digitsVal [h1, h2]
            let nn := digitsVal [n1, n2]
            let ss := digitsVal [s1, s2]
            if hh ≤ 23 ∧ nn ≤ 59 ∧ ss ≤ 59 then
              match rest2 with
              | [] => some ⟨y, mo, d, hh, nn, ss, 0, utc⟩
              | '.' :: frac =>
                if frac ≠ [] ∧ allDigits frac ∧ frac.length ≤ 6 then
                  some ⟨y, mo, d, hh, nn, ss, digitsVal frac, utc⟩
                else none
              | _ => none
            else none
          else none
        | _ => none
      else none
    else none
  | _ => none

/-- Zero-padded decimal rendering of width `w`. -/
def padNum (w n : Nat) : String :=
  let s := toString n
  String.mk (List.replicate (w - s.length) '0') ++ s

/-- Python `datetime.isoformat()` on the embedded timestamp. -/
def DateTime.isoformat (d : DateTime) : String :=
  padNum 4 d.year ++ "-" ++ padNum 2 d.month ++ "-" ++ padNum 2 d.day ++ "T" ++
    padNum 2 d.hour ++ ":" ++ padNum 2 d.minute ++ ":" ++ padNum 2 d.second ++
    (if d.microsecond = 0 then "" else "." ++ padNum 6 d.microsecond) ++
    (if d.utc then "+00:00" else "")

/-- Python `int(s)` on a string: optional surrounding whitespace, optional
sign, at least one decimal digit; otherwise a `ValueError` (`none`). -/
def pythonInt (s : String) : Option Int :=
  let cs := ((s.toList.dropWhile Char.isWhitespace).reverse.dropWhile
    Char.isWhitespace).reverse
  match cs with
  | '-' :: ds => if ds ≠ [] ∧ allDigits ds then some (-(digitsVal ds : Int)) else none
  | '+' :: ds => if ds ≠ [] ∧ allDigits ds then some (digitsVal ds : Int) else none
  | ds => if ds ≠ [] ∧ allDigits ds then some (digitsVal ds : Int) else none

/-! ### Enumerations (`models.py` lines 10–69)

Each Python `str`-Enum is an inductive with its raw value map and the
Python `Enum.__call__` constructor `ofValue`, which returns the member
whose raw value equals the given string and fails (`ValueError`)
otherwise. -/

/-- Python `EnumClass(s)`: the first member whose raw value is `s`. -/
def enumOfValue {α : Type} (value : α → String) (members : List α) (s : String) :
    Option α :=
  members.find? (fun e => value e == s)

inductive LogLevel where
  | TRACE | DEBUG | INFORMATION | WARNING | ERROR | CRITICAL
deriving DecidableEq, Fintype

def LogLevel.value : LogLevel → String
  | .TRACE => "Trace"
  | .DEBUG => "Debug"
  | .INFORMATION => "Information"
  | .WARNING => "Warning"
  | .ERROR => "Error"
  | .CRITICAL => "Critical"

def LogLevel.members : List LogLevel :=
  [.TRACE, .DEBUG, .INFORMATION, .WARNING, .ERROR, .CRITICAL]

def LogLevel.ofValue : String → Option LogLevel :=
  enumOfValue LogLevel.value LogLevel.members

inductive ServerStatus where
  | UNKNOWN | ONLINE | OFFLINE | MAINTENANCE | ERROR
deriving DecidableEq, Fintype

def ServerStatus.value : ServerStatus → String
  | .UNKNOWN => "Unknown"
  | .ONLINE => "Online"
  | .OFFLINE => "Offline"
  | .MAINTENANCE => "Maintenance"
  | .ERROR => "Error"

def ServerStatus.members : List ServerStatus :=
  [.UNKNOWN, .ONLINE, .OFFLINE, .MAINTENANCE, .ERROR]

def ServerStatus.ofValue : String → Option ServerStatus :=
  enumOfValue ServerStatus.value ServerStatus.members

inductive ExecutionStatus where
  | PENDING | RUNNING | SUCCESS | FAILED | CANCELLED | TIMED_OUT
deriving DecidableEq, Fintype

def ExecutionStatus.value : ExecutionStatus → String
  | .PENDING => "Pending"
  | .RUNNING => "Running"
  | .SUCCESS => "Success"
  | .FAILED => "Failed"
  | .CANCELLED => "Cancelled"
  | .TIMED_OUT => "TimedOut"

def ExecutionStatus.members : List ExecutionStatus :=
  [.PENDING, .RUNNING, .SUCCESS, .FAILED, .CANCELLED, .TIMED_OUT]

def ExecutionStatus.ofValue : String → Option ExecutionStatus :=
  enumOfValue ExecutionStatus.value ExecutionStatus.members

inductive JobPriority where
  | LOW | NORMAL | HIGH | CRITICAL
deriving DecidableEq, Fintype

def JobPriority.value : JobPriority → String
  | .LOW => "Low"
  | .NORMAL => "Normal"
  | .HIGH => "High"
  | .CRITICAL => "Critical"

def JobPriority.members : List JobPriority := [.LOW, .NORMAL, .HIGH, .CRITICAL]

def JobPriority.ofValue : String → Option JobPriority :=
  enumOfValue JobPriority.value JobPriority.members

inductive TriggerType where
  | MANUAL | SCHEDULED | TRIGGERED | RETRY
deriving DecidableEq, Fintype

def TriggerType.value : TriggerType → String
  | .MANUAL => "Manual"
  | .SCHEDULED => "Scheduled"
  | .TRIGGERED => "Triggered"
  | .RETRY => "Retry"

def TriggerType.members : List TriggerType :=
  [.MANUAL, .SCHEDULED, .TRIGGERED, .RETRY]

def TriggerType.ofValue : String → Option TriggerType :=
  enumOfValue TriggerType.value TriggerType.members

inductive AlertType where
  | ERROR_THRESHOLD | JOB_FAILURE | SERVER_OFFLINE | EXECUTION_TIMEOUT | CUSTOM
deriving DecidableEq, Fintype

def AlertType.value : AlertType → String
  | .ERROR_THRESHOLD => "ErrorThreshold"
  | .JOB_FAILURE => "JobFailure"
  | .SERVER_OFFLINE => "ServerOffline"
  | .EXECUTION_TIMEOUT => "ExecutionTimeout"
  | .CUSTOM => "Custom"

def AlertType.members : List AlertType :=
  [.ERROR_THRESHOLD, .JOB_FAILURE, .SERVER_OFFLINE, .EXECUTION_TIMEOUT, .CUSTOM]

def AlertType.ofValue : String → Option AlertType :=
  enumOfValue AlertType.value AlertType.members

inductive AlertSeverity where
  | INFO | WARNING | ERROR | CRITICAL
deriving DecidableEq, Fintype

def AlertSeverity.value : AlertSeverity → String
  | .INFO => "Info"
  | .WARNING => "Warning"
  | .ERROR => "Error"
  | .CRITICAL => "Critical"

def AlertSeverity.members : List AlertSeverity :=
  [.INFO, .WARNING, .ERROR, .CRITICAL]

def AlertSeverity.ofValue : String → Option AlertSeverity :=
  enumOfValue AlertSeverity.value AlertSeverity.members

/-- The claim-5 contract for one enumeration: every raw value round-trips
through construction, and every string that is nobody's raw value is
rejected by construction. -/
def EnumSpec {α : Type} (value : α → String) (ofValue : String → Option α) :
    Prop :=
  (∀ e, ofValue (value e) = some e) ∧
    (∀ s, (∀ e, value e ≠ s) → ofValue s = none)

theorem enumOfValue_value {α : Type} (value : α → String) (members : List α)
    (hm : ∀ e, e ∈ members) (hinj : ∀ x y, value x = value y → x = y) (e : α) :
    enumOfValue value members (value e) = some e := by
  unfold enumOfValue
  have hsome : (members.find? (fun x => value x == value e)).isSome := by
    rw [List.find?_isSome]
    exact ⟨e, hm e, by simp⟩
  obtain ⟨b, hb⟩ := Option.isSome_iff_exists.mp hsome
  have hpb := List.find?_some hb
  have : b = e := hinj _ _ (by simpa using hpb)
  rw [hb, this]

theorem enumOfValue_none {α : Type} (value : α → String) (members : List α)
    (s : String) (h : ∀ e, value e ≠ s) :
    enumOfValue value members s = none := by
  unfold enumOfValue
  rw [List.find?_eq_none]
  intro x _
  simpa using h x

theorem enumSpec_of {α : Type} (value : α → String) (members : List α)
    (hm : ∀ e, e ∈ members) (hinj : ∀ x y, value x = value y → x = y) :
    EnumSpec value (enumOfValue value members) :=
  ⟨enumOfValue_value value members hm hinj,
   fun s hs => enumOfValue_none value members s hs⟩

/-- C5: For each of the seven enumerations, constructing a member from a
string that is some member's raw value yields that member (so taking its
raw value returns the original string), and construction from a string
that is no member's raw value fails. -/
theorem enum_roundtrip_all :
    EnumSpec LogLevel.value LogLevel.ofValue ∧
    EnumSpec ServerStatus.value ServerStatus.ofValue ∧
    EnumSpec ExecutionStatus.value ExecutionStatus.ofValue ∧
    EnumSpec JobPriority.value JobPriority.ofValue ∧
    EnumSpec TriggerType.value TriggerType.ofValue ∧
    EnumSpec AlertType.value AlertType.ofValue ∧
    EnumSpec AlertSeverity.value AlertSeverity.ofValue :=
  ⟨enumSpec_of _ _ (by decide) (by decide),
   enumSpec_of _ _ (by decide) (by decide),
   enumSpec_of _ _ (by decide) (by decide),
   enumSpec_of _ _ (by decide) (by decide),
   enumSpec_of _ _ (by decide) (by decide),
   enumSpec_of _ _ (by decide) (by decide),
   enumSpec_of _ _ (by decide) (by decide)⟩

/-- Concrete instance of `enum_roundtrip_all`: the valid string
"Information" round-trips through `LogLevel`, and the invalid string
"Bogus" is rejected by `ServerStatus`. -/
theorem enum_roundtrip_all_witness :
    LogLevel.ofValue "Information" = some LogLevel.INFORMATION ∧
      ServerStatus.ofValue "Bogus" = none :=
  ⟨enum_roundtrip_all.1.1 LogLevel.INFORMATION,
   enum_roundtrip_all.2.1.2 "Bogus" (by decide)⟩

/-! ### Model deserialization (`models.py` lines 72–277)

Each Python `from_dict` becomes a function `Json → Option <Model>`:
`none` models an uncaught exception (enum `ValueError`, date-parse
failure, or the `AttributeError` from calling `.get` on a non-dict).
Fields whose Python annotation is a plain (optional) `str`, `bool`,
`int`, list or dict are stored as raw `Json`, exactly as the untyped
CPython dataclass does; enum- and datetime-annotated fields go through
the validating constructors. The deserializers that default a missing
timestamp to `datetime.utcnow()` take the current time `now` as an
explicit argument. -/

/-- Python `parse_date(data[key]) if data.get(key) else now`: a truthy
value must be a parsable date string, anything falsy gives `now`. -/
def getTsD (now : DateTime) (kvs : List (String × Json)) (key : String) :
    Option DateTime :=
  let v := (alookup kvs key).getD .null
  if v.truthy then
    match v with
    | .str s => parseDate s
    | _ => none
  else some now

/-- Python `parse_date(data[key]) if data.get(key) else None`. -/
def getOptTs (kvs : List (String × Json)) (key : String) :
    Option (Option DateTime) :=
  let v := (alookup kvs key).getD .null
  if v.truthy then
    match v with
    | .str s => (parseDate s).map some
    | _ => none
  else some none

/-- Python `EnumClass(data.get(key, dflt))`: the stored value (even a
falsy one) is passed to the enum constructor; only a missing key uses the
default raw string. -/
def getEnumD {α : Type} (ofValue : String → Option α)
    (kvs : List (String × Json)) (key : String) (dflt : String) : Option α :=
  match (alookup kvs key).getD (.str dflt) with
  | .str s => ofValue s
  | _ => none

/-- Python `EnumClass(data[key]) if data.get(key) else None`. -/
def getOptEnum {α : Type} (ofValue : String → Option α)
    (kvs : List (String × Json)) (key : String) : Option (Option α) :=
  let v := (alookup kvs key).getD .null
  if v.truthy then
    match v with
    | .str s => (ofValue s).map some
    | _ => none
  else some none

/-- `LogEntry` (`models.py` 72–104). Untyped-in-Python fields keep their
raw JSON value. -/
structure LogEntry where
  id : Json
  timestamp : DateTime
  level : LogLevel
  message : Json
  serverName : Json
  jobId : Json
  executionId : Json
  category : Json
  correlationId : Json
  exception : Json
  properties : Json
  createdAt : Option DateTime

def LogEntry.fromDict (now : DateTime) : Json → Option LogEntry
  | .obj kvs => do
    let ts ← getTsD now kvs "timestamp"
    let lv ← getEnumD LogLevel.ofValue kvs "level" "Information"
    let ca ← getOptTs kvs "createdAt"
    some
      { id := getJsonD kvs "id" (.str "")
        timestamp := ts
        level := lv
        message := getJsonD kvs "message" (.str "")
        serverName := getJsonD kvs "serverName" .null
        jobId := getJsonD kvs "jobId" .null
        executionId := getJsonD kvs "executionId" .null
        category := getJsonD kvs "category" .null
        correlationId := getJsonD kvs "correlationId" .null
        exception := getJsonD kvs "exception" .null
        properties := getJsonD kvs "properties" .null
        createdAt := ca }
  | _ => none

/-- `Server` (`models.py` 107–131). -/
structure Server where
  serverName : Json
  displayName : Json
  status : ServerStatus
  agentVersion : Json
  lastHeartbeat : Option DateTime
  isActive : Json
  ipAddress : Json
  osInfo : Json

def Server.fromDict : Json → Option Server
  | .obj kvs => do
    let st ← getEnumD ServerStatus.ofValue kvs "status" "Unknown"
    let hb ← getOptTs kvs "lastHeartbeat"
    some
      { serverName := getJsonD kvs "serverName" (.str "")
        displayName := getJsonD kvs "displayName" .null
        status := st
        agentVersion := getJsonD kvs "agentVersion" .null
        lastHeartbeat := hb
        isActive := getJsonD kvs "isActive" (.bool true)
        ipAddress := getJsonD kvs "ipAddress" .null
        osInfo := getJsonD kvs "osInfo" .null }
  | _ => none

/-- `Job` (`models.py` 134–164). -/
structure Job where
  jobId : Json
  displayName : Json
  serverName : Json
  description : Json
  schedule : Json
  priority : JobPriority
  isActive : Json
  timeoutMinutes : Json
  lastExecutionAt : Option DateTime
  lastExecutionStatus : Option ExecutionStatus
  tags : Json

def Job.fromDict : Json → Option Job
  | .obj kvs => do
    let pr ← getEnumD JobPriority.ofValue kvs "priority" "Normal"
    let lea ← getOptTs kvs "lastExecutionAt"
    let les ← getOptEnum ExecutionStatus.ofValue kvs "lastExecutionStatus"
    some
      { jobId := getJsonD kvs "jobId" (.str "")
        displayName := getJsonD kvs "displayName" (.str "")
        serverName := getJsonD kvs "serverName" (.str "")
        description := getJsonD kvs "description" .null
        schedule := getJsonD kvs "schedule" .null
        priority := pr
        isActive := getJsonD kvs "isActive" (.bool true)
        timeoutMinutes := getJsonD kvs "timeoutMinutes" .null
        lastExecutionAt := lea
        lastExecutionStatus := les
        tags := getJsonD kvs "tags" (.arr []) }
  | _ => none

/-- `Execution` (`models.py` 167–199). -/
structure Execution where
  id : Json
  jobId : Json
  serverName : Json
  status : ExecutionStatus
  startedAt : Option DateTime
  completedAt : Option DateTime
  durationMs : Json
  triggerType : TriggerType
  triggeredBy : Json
  errorMessage : Json
  outputMessage : Json
  parameters : Json

def Execution.fromDict : Json → Option Execution
  | .obj kvs => do
    let st ← getEnumD ExecutionStatus.ofValue kvs "status" "Pending"
    let sa ← getOptTs kvs "startedAt"
    let ca ← getOptTs kvs "completedAt"
    let tt ← getEnumD TriggerType.ofValue kvs "triggerType" "Manual"
    some
      { id := getJsonD kvs "id" (.str "")
        jobId := getJsonD kvs "jobId" (.str "")
        serverName := getJsonD kvs "serverName" (.str "")
        status := st
        startedAt := sa
        completedAt := ca
        durationMs := getJsonD kvs "durationMs" .null
        triggerType := tt
        triggeredBy := getJsonD kvs "triggeredBy" .null
        errorMessage := getJsonD kvs "errorMessage" .null
        outputMessage := getJsonD kvs "outputMessage" .null
        parameters := getJsonD kvs "parameters" .null }
  | _ => none

/-- `AlertInstance` (`models.py` 227–255); `now` models
`datetime.utcnow()` for a missing `triggeredAt`. -/
structure AlertInstance where
  id : Json
  alertId : Json
  alertName : Json
  severity : AlertSeverity
  triggeredAt : DateTime
  acknowledgedAt : Option DateTime
  resolvedAt : Option DateTime
  acknowledgedBy : Json
  resolvedBy : Json
  message : Json

def AlertInstance.fromDict (now : DateTime) : Json → Option AlertInstance
  | .obj kvs => do
    let sev ← getEnumD AlertSeverity.ofValue kvs "severity" "Warning"
    let ta ← getTsD now kvs "triggeredAt"
    let ack ← getOptTs kvs "acknowledgedAt"
    let res ← getOptTs kvs "resolvedAt"
    some
      { id := getJsonD kvs "id" (.str "")
        alertId := getJsonD kvs "alertId" (.str "")
        alertName := getJsonD kvs "alertName" (.str "")
        severity := sev
        triggeredAt := ta
        acknowledgedAt := ack
        resolvedAt := res
        acknowledgedBy := getJsonD kvs "acknowledgedBy" .null
        resolvedBy := getJsonD kvs "resolvedBy" .null
        message := getJsonD kvs "message" .null }
  | _ => none

/-- Python iteration over the `items` value of a paged payload: lists
yield their elements, a string yields its one-character substrings, a
dict yields its keys, and everything else raises `TypeError`. -/
def pyIterItems : Json → Option (List Json)
  | .arr l => some l
  | .str s => some (s.toList.map (fun c => Json.str (String.mk [c])))
  | .obj kvs => some (kvs.map (fun kv => Json.str kv.1))
  | _ => none

/-- `PagedResult` (`models.py` 258–277), generic over the item factory. -/
structure PagedResult (α : Type) where
  items : List α
  page : Json
  pageSize : Json
  totalCount : Json
  totalPages : Json

/-- The list comprehension `[item_class.from_dict(item) for item in …]`
(line 270): the factory runs on each element in order and the first
failure aborts the whole deserialization. -/
def mapFromDict {α : Type} (f : Json → Option α) : List Json → Option (List α)
  | [] => some []
  | x :: xs => do
    let a ← f x
    let rest ← mapFromDict f xs
    some (a :: rest)

def PagedResult.fromDict {α : Type} (f : Json → Option α) :
    Json → Option (PagedResult α)
  | .obj kvs => do
    let raw ← pyIterItems (getJsonD kvs "items" (.arr []))
    let its ← mapFromDict f raw
    some
      { items := its
        page := getJsonD kvs "page" (.num 1)
        pageSize := getJsonD kvs "pageSize" (.num 20)
        totalCount := getJsonD kvs "totalCount" (.num 0)
        totalPages := getJsonD kvs "totalPages" (.num 0) }
  | _ => none

/-! ### Error taxonomy (`exceptions.py`) and response handling
(`client.py` lines 117–244)

`FMSError` is the exception hierarchy flattened into one inductive; each
constructor carries the `(message, status_code, response)` triple set by
`_handle_response`, plus the kind-specific extras (`errors` for
validation, `retry_after` for rate limiting). Messages are raw JSON
values because Python stores whatever `data.get("detail", …)` returns. -/

inductive FMSError where
  | fmsError (message : Json) (statusCode : Option Int) (response : Option Json)
  | authenticationError (message : Json) (statusCode : Option Int)
      (response : Option Json)
  | authorizationError (message : Json) (statusCode : Option Int)
      (response : Option Json)
  | notFoundError (message : Json) (statusCode : Option Int)
      (response : Option Json)
  | validationError (message : Json) (statusCode : Option Int)
      (response : Option Json) (errors : Json)
  | conflictError (message : Json) (statusCode : Option Int)
      (response : Option Json)
  | rateLimitError (message : Json) (statusCode : Option Int)
      (response : Option Json) (retryAfter : Option Int)
  | serverError (message : Json) (statusCode : Option Int)
      (response : Option Json)
  | connectionError (message : Json) (statusCode : Option Int)
      (response : Option Json)
  | timeoutError (message : Json) (statusCode : Option Int)
      (response : Option Json)

/-- Outcome of `_handle_response`: a returned payload, a raised taxonomy
error, or a raised plain Python exception (escaping the taxonomy). -/
inductive HandleResult where
  | ok (payload : Option Json)
  | raised (e : FMSError)
  | pyError (e : PyErr)

/-- An HTTP response as `_handle_response` sees it: status code, headers,
and `data`, the result of `response.json() if response.content else None`
with a JSON parse failure already degraded to `none` (lines 119–122). -/
structure Response where
  status : Int
  headers : List (String × String)
  data : Option Json

/-- Python `data.get("detail", generic) if data else generic`: a falsy
payload falls back to the generic message, a truthy payload must be a
dict (otherwise `.get` raises `AttributeError`). -/
def detailOr (data : Option Json) (generic : String) : Except PyErr Json :=
  match data with
  | none => .ok (.str generic)
  | some d =>
    if d.truthy then
      match d with
      | .obj kvs => .ok ((alookup kvs "detail").getD (.str generic))
      | _ => .error .attributeError
    else .ok (.str generic)

/-- Python `data.get("errors") if data else None` (line 129). -/
def errorsOf (data : Option Json) : Except PyErr Json :=
  match data with
  | none => .ok .null
  | some d =>
    if d.truthy then
      match d with
      | .obj kvs => .ok ((alookup kvs "errors").getD .null)
      | _ => .error .attributeError
    else .ok .null

/-- Python `int(retry_after) if retry_after else None` applied to the
`Retry-After` header value (lines 161–166). -/
def retryAfterOf (hdr : Option String) : Except PyErr (Option Int) :=
  match hdr with
  | none => .ok none
  | some s =>
    if s = "" then .ok none
    else
      match pythonInt s with
      | some k => .ok (some k)
      | none => .error .valueError

/-- `FMSClient._handle_response` (`client.py` 117–179): the status-code
dispatch onto the error taxonomy. -/
def handleResponse (r : Response) : HandleResult :=
  let data := r.data
  if r.status = 200 ∨ r.status = 201 then .ok data
  else if r.status = 204 then .ok none
  else if r.status = 400 then
    match errorsOf data, detailOr data "Validation failed" with
    | .error e, _ => .pyError e
    | _, .error e => .pyError e
    | .ok errs, .ok msg =>
      .raised (.validationError msg (some r.status) data (pyOr errs (.obj [])))
  else if r.status = 401 then
    match detailOr data "Authentication failed" with
    | .error e => .pyError e
    | .ok msg => .raised (.authenticationError msg (some r.status) data)
  else if r.status = 403 then
    match detailOr data "Access denied" with
    | .error e => .pyError e
    | .ok msg => .raised (.authorizationError msg (some r.status) data)
  else if r.status = 404 then
    match detailOr data "Resource not found" with
    | .error e => .pyError e
    | .ok msg => .raised (.notFoundError msg (some r.status) data)
  else if r.status = 409 then
    match detailOr data "Resource conflict" with
    | .error e => .pyError e
    | .ok msg => .raised (.conflictError msg (some r.status) data)
  else if r.status = 429 then
    match detailOr data "Rate limit exceeded",
        retryAfterOf (alookup r.headers "Retry-After") with
    | .error e, _ => .pyError e
    | _, .error e => .pyError e
    | .ok msg, .ok ra => .raised (.rateLimitError msg (some r.status) data ra)
  else if r.status ≥ 500 then
    match detailOr data "Server error" with
    | .error e => .pyError e
    | .ok msg => .raised (.serverError msg (some r.status) data)
  else
    match detailOr data ("HTTP " ++ toString r.status) with
    | .error e => .pyError e
    | .ok msg => .raised (.fmsError msg (some r.status) data)

/-- Python `v is not None` on a query-parameter value. -/
def isNotNone : Json → Bool
  | .null => false
  | _ => true

/-- The `params` preprocessing of `FMSClient._request` (lines 192–194):
a truthy params dict is rebuilt without its `None` values; an absent or
empty dict is passed on unchanged. -/
def requestParams : Option (List (String × Json)) → Option (List (String × Json))
  | none => none
  | some [] => some []
  | some (kv :: rest) => some ((kv :: rest).filter (fun p => isNotNone p.2))

/-! ### Authentication state (`client.py` 77–79, 227–240) -/

/-- The token triple held by `FMSClient`. -/
structure TokenState where
  accessToken : Option String
  refreshToken : Option String
  tokenExpiresAt : Option DateTime

/-- `FMSClient.logout` (lines 227–240) as a state transformer. `remote`
is the outcome the `POST auth/logout` request would have (it is consulted
only when a refresh token is held); `except FMSError: pass` swallows every
taxonomy error, while a plain Python exception escaping `_handle_response`
is not caught and propagates. The local token state is cleared on every
non-propagating path. -/
def logoutModel (st : TokenState) (remote : HandleResult) :
    Except PyErr TokenState :=
  match st.refreshToken with
  | none => .ok ⟨none, none, none⟩
  | some _ =>
    match remote with
    | .ok _ => .ok ⟨none, none, none⟩
    | .raised _ => .ok ⟨none, none, none⟩
    | .pyError e => .error e

/-! ### Sub-client request builders (`client.py` 247–529)

Each operation named by the claims becomes a pure function from its
arguments to the request it issues: method, endpoint, query params and
JSON body. A `Union[Enum, str]` argument is a `Sum`; the
`if isinstance(x, str): x = EnumClass(x)` conversion is `resolveEnum`
(an enum member is returned unchanged, exactly as `EnumClass(member)`
does in Python). `Except PyErr` captures the enum `ValueError` raised
before any request is issued. -/

structure Request where
  method : String
  endpoint : String
  params : Option (List (String × Json))
  data : Option Json

/-- The `if isinstance(x, str): x = EnumClass(x)` prologue shared by the
five converting operations. -/
def resolveEnum {α : Type} (ofValue : String → Option α) :
    Sum α String → Except PyErr α
  | .inl e => .ok e
  | .inr s =>
    match ofValue s with
    | some e => .ok e
    | none => .error .valueError

/-- Python `opt if opt is not None else null` field rendering. -/
def optStr : Option String → Json
  | none => .null
  | some s => .str s

/-- Python `d.isoformat() if d else None`. -/
def optIso : Option DateTime → Json
  | none => .null
  | some d => .str d.isoformat

/-- `LogClient.create` (lines 255–284): the request it issues. `nowIso`
models `datetime.utcnow().isoformat()`. -/
def createRequest (serverName nowIso message : String)
    (level : Sum LogLevel String)
    (jobId executionId category correlationId exception properties : Json) :
    Except PyErr Request := do
  let lv ← resolveEnum LogLevel.ofValue level
  .ok
    { method := "POST"
      endpoint := "logs"
      params := none
      data := some (.obj
        [("timestamp", .str (nowIso ++ "Z")),
         ("level", .str lv.value),
         ("message", .str message),
         ("serverName", .str serverName),
         ("jobId", jobId),
         ("executionId", executionId),
         ("category", category),
         ("correlationId", correlationId),
         ("exception", exception),
         ("properties", properties)]) }

/-- The `level` query-parameter of `LogClient.search` (line 333):
`level.value if isinstance(level, LogLevel) else level` — a raw string is
passed through without enum validation. -/
def searchLevelParam : Option (Sum LogLevel String) → Json
  | none => .null
  | some (.inl l) => .str l.value
  | some (.inr s) => .str s

/-- `LogClient.search` (lines 319–340): the request it issues. It never
raises before the HTTP call. -/
def searchRequest (serverName jobId : Option String)
    (level : Option (Sum LogLevel String))
    (startDate endDate : Option DateTime) (page pageSize : Int) : Request :=
  { method := "GET"
    endpoint := "logs/search"
    params := some
      [("serverName", optStr serverName),
       ("jobId", optStr jobId),
       ("level", searchLevelParam level),
       ("startDate", optIso startDate),
       ("endDate", optIso endDate),
       ("page", .num page),
       ("pageSize", .num pageSize)]
    data := none }

/-- `ServerClient.heartbeat` (lines 349–365). -/
def heartbeatRequest (serverName : String) (status : Sum ServerStatus String)
    (agentVersion : String) (systemInfo : Json) : Except PyErr Request := do
  let st ← resolveEnum ServerStatus.ofValue status
  .ok
    { method := "POST"
      endpoint := "servers/heartbeat"
      params := none
      data := some (.obj
        [("serverName", .str serverName),
         ("status", .str st.value),
         ("agentVersion", .str agentVersion),
         ("systemInfo", systemInfo)]) }

/-- `JobClient.register` (lines 391–416). -/
def registerRequest (serverName jobId displayName : String)
    (description schedule : Json) (priority : Sum JobPriority String)
    (timeoutMinutes tags : Json) : Except PyErr Request := do
  let pr ← resolveEnum JobPriority.ofValue priority
  .ok
    { method := "POST"
      endpoint := "jobs/register"
      params := none
      data := some (.obj
        [("jobId", .str jobId),
         ("displayName", .str displayName),
         ("description", description),
         ("serverName", .str serverName),
         ("schedule", schedule),
         ("priority", .str pr.value),
         ("timeoutMinutes", timeoutMinutes),
         ("tags", tags)]) }

/-- Python `triggered_by or os.getenv("USER", "unknown")` (line 461);
`envUser` is the `USER` environment variable. -/
def triggeredByOf (triggeredBy : Option String) (envUser : Option String) :
    String :=
  match triggeredBy with
  | some s => if s = "" then envUser.getD "unknown" else s
  | none => envUser.getD "unknown"

/-- `ExecutionClient.start` (lines 446–465). -/
def startRequest (serverName : String) (envUser : Option String)
    (jobId : String) (triggerType : Sum TriggerType String)
    (triggeredBy : Option String) (parameters : Json) :
    Except PyErr Request := do
  let tt ← resolveEnum TriggerType.ofValue triggerType
  .ok
    { method := "POST"
      endpoint := "executions"
      params := none
      data := some (.obj
        [("jobId", .str jobId),
         ("serverName", .str serverName),
         ("triggerType", .str tt.value),
         ("triggeredBy", .str (triggeredByOf triggeredBy envUser)),
         ("parameters", parameters)]) }

/-- `ExecutionClient.complete` (lines 467–484). -/
def completeRequest (executionId : String)
    (status : Sum ExecutionStatus String) (outputMessage errorMessage : Json) :
    Except PyErr Request := do
  let st ← resolveEnum ExecutionStatus.ofValue status
  .ok
    { method := "PUT"
      endpoint := "executions/" ++ executionId ++ "/complete"
      params := none
      data := some (.obj
        [("status", .str st.value),
         ("outputMessage", outputMessage),
         ("errorMessage", errorMessage)]) }

/-! ### Claim theorems -/

/-- C4: After `FMSClient.logout` returns, the access token, refresh token
and token expiry are all `None`, both when the remote invalidation
request succeeds and when it raises any error of the FMS taxonomy; such a
failure is swallowed and never propagates to the caller. -/
theorem logout_clears_tokens_and_swallows (st : TokenState)
    (remote : HandleResult) (h : ∀ e, remote ≠ HandleResult.pyError e) :
    logoutModel st remote = .ok ⟨none, none, none⟩ := by
  cases hr : st.refreshToken with
  | none => simp [logoutModel, hr]
  | some t =>
    cases remote with
    | ok p => simp [logoutModel, hr]
    | raised e => simp [logoutModel, hr]
    | pyError e => exact absurd rfl (h e)

/-- Concrete instance of `logout_clears_tokens_and_swallows`: a client
holding both tokens whose remote logout call raises a `ServerError` still
ends with all three fields cleared and no propagated error. -/
theorem logout_clears_tokens_witness :
    logoutModel ⟨some "acc", some "ref", none⟩
      (.raised (.serverError (.str "boom") (some 500) none)) =
      .ok ⟨none, none, none⟩ :=
  logout_clears_tokens_and_swallows _ _ (by intro e h; exact nomatch h)

/-- `isNotNone` holds exactly away from the JSON null value. -/
theorem isNotNone_iff (v : Json) : isNotNone v = true ↔ v ≠ Json.null := by
  cases v <;> simp [isNotNone]

/-- C9: The query parameters `_request` sends are exactly the given ones
whose value is set (not `None`), in their original order and with their
values unchanged. -/
theorem request_params_drop_none (ps qs : List (String × Json))
    (h : requestParams (some ps) = some qs) :
    (∀ k v, (k, v) ∈ qs ↔ ((k, v) ∈ ps ∧ v ≠ Json.null)) ∧ qs.Sublist ps := by
  cases ps with
  | nil =>
    simp only [requestParams, Option.some.injEq] at h
    subst h
    simp
  | cons kv rest =>
    simp only [requestParams, Option.some.injEq] at h
    subst h
    refine ⟨fun k v => ?_, List.filter_sublist _⟩
    rw [List.mem_filter]
    simp [isNotNone_iff]

/-- Concrete instance of `request_params_drop_none`: filtering
`[a ↦ None, b ↦ "x"]` keeps exactly `b ↦ "x"` and drops `a`. -/
theorem request_params_drop_none_witness :
    ((("b", Json.str "x") ∈ [("b", Json.str "x")] ↔
        (("b", Json.str "x") ∈ [("a", Json.null), ("b", Json.str "x")] ∧
          Json.str "x" ≠ Json.null)) ∧
      (("a", Json.null) ∈ [("b", Json.str "x")] ↔
        (("a", Json.null) ∈ [("a", Json.null), ("b", Json.str "x")] ∧
          Json.null ≠ Json.null))) ∧
      List.Sublist [("b", Json.str "x")] [("a", Json.null), ("b", Json.str "x")] := by
  have h := request_params_drop_none [("a", Json.null), ("b", Json.str "x")]
    [("b", Json.str "x")] rfl
  exact ⟨⟨h.1 "b" (.str "x"), h.1 "a" .null⟩, h.2⟩

/-- Lookup misses when no binding carries the key. -/
theorem alookup_eq_none {β : Type} (kvs : List (String × β)) (key : String)
    (h : ∀ kv ∈ kvs, kv.1 ≠ key) : alookup kvs key = none := by
  induction kvs with
  | nil => rfl
  | cons kv rest ih =>
    have hk : kv.1 ≠ key := h kv (List.mem_cons_self kv rest)
    obtain ⟨k, v⟩ := kv
    simp only [alookup, if_neg hk]
    exact ih fun p hp => h p (List.mem_cons_of_mem _ hp)

theorem JobPriority.ofValue_normal :
    JobPriority.ofValue "Normal" = some JobPriority.NORMAL := rfl

theorem LogLevel.ofValue_information :
    LogLevel.ofValue "Information" = some LogLevel.INFORMATION := rfl

/-- C6: Deserializing a `Job` from a JSON object whose keys are only the
required `jobId` / `displayName` / `serverName` succeeds, and every
optional field carries its documented default: priority `Normal`,
`is_active` true, empty tag list, and null/absent for the rest. -/
theorem job_fromDict_defaults (kvs : List (String × Json))
    (hkeys : ∀ kv ∈ kvs,
      kv.1 = "jobId" ∨ kv.1 = "displayName" ∨ kv.1 = "serverName") :
    ∃ j, Job.fromDict (.obj kvs) = some j ∧
      j.priority = JobPriority.NORMAL ∧ j.isActive = Json.bool true ∧
      j.tags = Json.arr [] ∧ j.description = Json.null ∧
      j.schedule = Json.null ∧ j.timeoutMinutes = Json.null ∧
      j.lastExecutionAt = none ∧ j.lastExecutionStatus = none := by
  have habs : ∀ key : String, key ≠ "jobId" → key ≠ "displayName" →
      key ≠ "serverName" → alookup kvs key = none := by
    intro key h1 h2 h3
    refine alookup_eq_none kvs key fun kv hm => ?_
    rcases hkeys kv hm with h | h | h <;> rw [h] <;>
      first
      | exact fun he => h1 he.symm
      | exact fun he => h2 he.symm
      | exact fun he => h3 he.symm
  have hpr := habs "priority" (by decide) (by decide) (by decide)
  have hd := habs "description" (by decide) (by decide) (by decide)
  have hs := habs "schedule" (by decide) (by decide) (by decide)
  have hia := habs "isActive" (by decide) (by decide) (by decide)
  have htm := habs "timeoutMinutes" (by decide) (by decide) (by decide)
  have hlea := habs "lastExecutionAt" (by decide) (by decide) (by decide)
  have hles := habs "lastExecutionStatus" (by decide) (by decide) (by decide)
  have htg := habs "tags" (by decide) (by decide) (by decide)
  refine ⟨{ jobId := getJsonD kvs "jobId" (.str "")
            displayName := getJsonD kvs "displayName" (.str "")
            serverName := getJsonD kvs "serverName" (.str "")
            description := .null
            schedule := .null
            priority := .NORMAL
            isActive := .bool true
            timeoutMinutes := .null
            lastExecutionAt := none
            lastExecutionStatus := none
            tags := .arr [] }, ?_, rfl, rfl, rfl, rfl, rfl, rfl, rfl, rfl⟩
  simp [Job.fromDict, getEnumD, getOptTs, getOptEnum, getJsonD, Json.truthy,
    hpr, hd, hs, hia, htm, hlea, hles, htg, JobPriority.ofValue_normal]

/-- Concrete instance of `job_fromDict_defaults`: an object holding only
the three required keys. -/
theorem job_fromDict_defaults_witness :
    ∃ j, Job.fromDict (.obj
        [("jobId", Json.str "j1"), ("displayName", Json.str "D"),
         ("serverName", Json.str "S")]) = some j ∧
      j.priority = JobPriority.NORMAL ∧ j.isActive = Json.bool true ∧
      j.tags = Json.arr [] ∧ j.description = Json.null ∧
      j.schedule = Json.null ∧ j.timeoutMinutes = Json.null ∧
      j.lastExecutionAt = none ∧ j.lastExecutionStatus = none :=
  job_fromDict_defaults _ (by
    intro kv h
    rcases List.mem_cons.mp h with h | h
    · exact Or.inl (by rw [h])
    rcases List.mem_cons.mp h with h | h
    · exact Or.inr (Or.inl (by rw [h]))
    rcases List.mem_cons.mp h with h | h
    · exact Or.inr (Or.inr (by rw [h]))
    · exact absurd h (List.not_mem_nil kv))

/-- The raw value Python iterates for the `items` key, restricted to the
shapes the claim speaks about: an `items` array, or no `items` key at all
(defaulting to the empty list). -/
def itemsArr (kvs : List (String × Json)) : Option (List Json) :=
  match alookup kvs "items" with
  | none => some []
  | some (.arr xs) => some xs
  | some _ => none

/-- The comprehension is the monadic in-order map. -/
theorem mapFromDict_eq_mapM {α : Type} (f : Json → Option α) (l : List Json) :
    mapFromDict f l = l.mapM f := by
  rw [← List.mapM'_eq_mapM]
  induction l with
  | nil => rfl
  | cons x xs ih =>
    simp only [mapFromDict, List.mapM'_cons, ih]
    cases f x <;> rfl

/-- C7: `PagedResult.from_dict` maps every element of the `items` array
through the item factory in order (a factory failure fails the whole
deserialization), and copies the four pagination scalars from the object
with defaults page=1, pageSize=20, totalCount=0, totalPages=0 when
absent; on the literal object of the claim it yields an empty item
sequence and those four scalars unchanged. -/
theorem pagedResult_fromDict_generic {α : Type} (f : Json → Option α) :
    (∀ kvs l, itemsArr kvs = some l →
      PagedResult.fromDict f (.obj kvs) =
        (l.mapM f).map fun its =>
          { items := its
            page := getJsonD kvs "page" (.num 1)
            pageSize := getJsonD kvs "pageSize" (.num 20)
            totalCount := getJsonD kvs "totalCount" (.num 0)
            totalPages := getJsonD kvs "totalPages" (.num 0) }) ∧
    PagedResult.fromDict f (.obj
        [("items", .arr []), ("page", .num 1), ("pageSize", .num 20),
         ("totalCount", .num 0), ("totalPages", .num 0)]) =
      some ⟨[], .num 1, .num 20, .num 0, .num 0⟩ := by
  constructor
  · intro kvs l h
    unfold itemsArr at h
    have key : PagedResult.fromDict f (.obj kvs) =
        (mapFromDict f l).bind fun its => some
          { items := its
            page := getJsonD kvs "page" (.num 1)
            pageSize := getJsonD kvs "pageSize" (.num 20)
            totalCount := getJsonD kvs "totalCount" (.num 0)
            totalPages := getJsonD kvs "totalPages" (.num 0) } := by
      cases hlk : alookup kvs "items" with
      | none =>
        rw [hlk] at h
        obtain rfl : ([] : List Json) = l := by simpa using h
        simp [PagedResult.fromDict, getJsonD, hlk, pyIterItems]
      | some v =>
        rw [hlk] at h
        cases v with
        | arr xs =>
          obtain rfl : xs = l := by simpa using h
          simp [PagedResult.fromDict, getJsonD, hlk, pyIterItems]
        | null => exact absurd h (by simp)
        | bool b => exact absurd h (by simp)
        | num n => exact absurd h (by simp)
        | str s => exact absurd h (by simp)
        | obj o => exact absurd h (by simp)
    rw [key, mapFromDict_eq_mapM]
    cases l.mapM f <;> rfl
  · rfl

/-- Concrete instance of `pagedResult_fromDict_generic`: an object with
an empty `items` array and no scalar keys gets the documented defaults,
for the `Job` factory. -/
theorem pagedResult_fromDict_witness :
    PagedResult.fromDict Job.fromDict (.obj [("items", .arr [])]) =
      some ⟨[], .num 1, .num 20, .num 0, .num 0⟩ :=
  ((pagedResult_fromDict_generic Job.fromDict).1 [("items", .arr [])] []
    rfl).trans rfl

/-- A fixed reference instant standing in for `datetime.utcnow()` in
concrete evaluations. -/
def now0 : DateTime := ⟨2024, 1, 1, 0, 0, 0, 0, false⟩

/-- C10 (amended): `LogEntry.from_dict` on an object with no `level` key
defaults the severity to `Information` (provided the timestamp fields
deserialize); a present-but-falsy `level` value is not defaulted — it is
passed to the enum constructor and fails (see
`logEntry_falsy_level_fails`). -/
theorem logEntry_missing_level_information (now : DateTime)
    (kvs : List (String × Json)) (hlv : alookup kvs "level" = none)
    (hts : (getTsD now kvs "timestamp").isSome = true)
    (hca : (getOptTs kvs "createdAt").isSome = true) :
    ∃ e, LogEntry.fromDict now (.obj kvs) = some e ∧
      e.level = LogLevel.INFORMATION := by
  obtain ⟨ts, hts⟩ := Option.isSome_iff_exists.mp hts
  obtain ⟨ca, hca⟩ := Option.isSome_iff_exists.mp hca
  refine ⟨{ id := getJsonD kvs "id" (.str "")
            timestamp := ts
            level := .INFORMATION
            message := getJsonD kvs "message" (.str "")
            serverName := getJsonD kvs "serverName" .null
            jobId := getJsonD kvs "jobId" .null
            executionId := getJsonD kvs "executionId" .null
            category := getJsonD kvs "category" .null
            correlationId := getJsonD kvs "correlationId" .null
            exception := getJsonD kvs "exception" .null
            properties := getJsonD kvs "properties" .null
            createdAt := ca }, ?_, rfl⟩
  simp [LogEntry.fromDict, getEnumD, hlv, hts, hca,
    LogLevel.ofValue_information]

/-- Counterexample to C10 as stated: a present but falsy `level` value
(the empty string) does not default to `Information` — deserialization
fails, because `data.get("level", "Information")` only substitutes the
default for a missing key and `LogLevel("")` raises. -/
theorem logEntry_falsy_level_fails :
    LogEntry.fromDict now0 (.obj [("level", Json.str "")]) = none := rfl

/-- Concrete instance of `logEntry_missing_level_information`: an object
with only a `message` key yields severity `Information`. -/
theorem logEntry_missing_level_witness :
    ∃ e, LogEntry.fromDict now0 (.obj [("message", Json.str "hi")]) =
        some e ∧ e.level = LogLevel.INFORMATION :=
  logEntry_missing_level_information now0 _ rfl rfl rfl

/-- A truthy stored string is returned by the truthiness-guarded
timestamp reader and handed to the date parser. -/
theorem getTsD_present (now : DateTime) (kvs : List (String × Json))
    (key s : String) (h : alookup kvs key = some (.str s)) (hne : s ≠ "") :
    getTsD now kvs key = parseDate s := by
  simp [getTsD, h, Json.truthy, hne]

theorem getOptTs_present (kvs : List (String × Json)) (key s : String)
    (h : alookup kvs key = some (.str s)) (hne : s ≠ "") :
    getOptTs kvs key = (parseDate s).map some := by
  simp [getOptTs, h, Json.truthy, hne]

/-- C3 (amended): for each timestamp-bearing field (`timestamp` and
`createdAt` on `LogEntry`, `lastHeartbeat` on `Server`, `startedAt` on
`Execution`, `triggeredAt` on `AlertInstance`), a present non-empty
string value that is not parsable ISO-8601 makes `from_dict` fail, and a
parsable one (with the model's other enum/timestamp fields well-formed)
makes it succeed carrying exactly the parsed timestamp. A present
empty-string value is falsy in Python and is treated as absent (see
`logEntry_empty_timestamp_defaults`). -/
theorem timestamp_fields_iso8601 (now : DateTime)
    (kvs : List (String × Json)) (s : String) (hne : s ≠ "") :
    (alookup kvs "timestamp" = some (.str s) →
      (parseDate s = none → LogEntry.fromDict now (.obj kvs) = none) ∧
      (∀ dt, parseDate s = some dt →
        (getEnumD LogLevel.ofValue kvs "level" "Information").isSome = true →
        (getOptTs kvs "createdAt").isSome = true →
        ∃ e, LogEntry.fromDict now (.obj kvs) = some e ∧ e.timestamp = dt)) ∧
    (alookup kvs "createdAt" = some (.str s) →
      (parseDate s = none → LogEntry.fromDict now (.obj kvs) = none) ∧
      (∀ dt, parseDate s = some dt →
        (getTsD now kvs "timestamp").isSome = true →
        (getEnumD LogLevel.ofValue kvs "level" "Information").isSome = true →
        ∃ e, LogEntry.fromDict now (.obj kvs) = some e ∧
          e.createdAt = some dt)) ∧
    (alookup kvs "lastHeartbeat" = some (.str s) →
      (parseDate s = none → Server.fromDict (.obj kvs) = none) ∧
      (∀ dt, parseDate s = some dt →
        (getEnumD ServerStatus.ofValue kvs "status" "Unknown").isSome = true →
        ∃ sv, Server.fromDict (.obj kvs) = some sv ∧
          sv.lastHeartbeat = some dt)) ∧
    (alookup kvs "startedAt" = some (.str s) →
      (parseDate s = none → Execution.fromDict (.obj kvs) = none) ∧
      (∀ dt, parseDate s = some dt →
        (getEnumD ExecutionStatus.ofValue kvs "status" "Pending").isSome =
          true →
        (getOptTs kvs "completedAt").isSome = true →
        (getEnumD TriggerType.ofValue kvs "triggerType" "Manual").isSome =
          true →
        ∃ ex, Execution.fromDict (.obj kvs) = some ex ∧
          ex.startedAt = some dt)) ∧
    (alookup kvs "triggeredAt" = some (.str s) →
      (parseDate s = none → AlertInstance.fromDict now (.obj kvs) = none) ∧
      (∀ dt, parseDate s = some dt →
        (getEnumD AlertSeverity.ofValue kvs "severity" "Warning").isSome =
          true →
        (getOptTs kvs "acknowledgedAt").isSome = true →
        (getOptTs kvs "resolvedAt").isSome = true →
        ∃ ai, AlertInstance.fromDict now (.obj kvs) = some ai ∧
          ai.triggeredAt = dt)) := by
  refine ⟨fun h => ⟨fun hp => ?_, fun dt hp hlv hca => ?_⟩,
    fun h => ⟨fun hp => ?_, fun dt hp hts hlv => ?_⟩,
    fun h => ⟨fun hp => ?_, fun dt hp hst => ?_⟩,
    fun h => ⟨fun hp => ?_, fun dt hp hst hco htt => ?_⟩,
    fun h => ⟨fun hp => ?_, fun dt hp hsv hak hrs => ?_⟩⟩
  · simp [LogEntry.fromDict, getTsD_present now kvs _ s h hne, hp]
  · obtain ⟨lv, hlv⟩ := Option.isSome_iff_exists.mp hlv
    obtain ⟨ca, hca⟩ := Option.isSome_iff_exists.mp hca
    refine ⟨{ id := getJsonD kvs "id" (.str "")
              timestamp := dt
              level := lv
              message := getJsonD kvs "message" (.str "")
              serverName := getJsonD kvs "serverName" .null
              jobId := getJsonD kvs "jobId" .null
              executionId := getJsonD kvs "executionId" .null
              category := getJsonD kvs "category" .null
              correlationId := getJsonD kvs "correlationId" .null
              exception := getJsonD kvs "exception" .null
              properties := getJsonD kvs "properties" .null
              createdAt := ca }, ?_, rfl⟩
    simp [LogEntry.fromDict, getTsD_present now kvs _ s h hne, hp, hlv, hca]
  · simp only [LogEntry.fromDict]
    cases hts : getTsD now kvs "timestamp" with
    | none => simp [hts]
    | some ts =>
      cases hlv : getEnumD LogLevel.ofValue kvs "level" "Information" with
      | none => simp [hts, hlv]
      | some lv => simp [hts, hlv, getOptTs_present kvs _ s h hne, hp]
  · obtain ⟨ts, hts⟩ := Option.isSome_iff_exists.mp hts
    obtain ⟨lv, hlv⟩ := Option.isSome_iff_exists.mp hlv
    refine ⟨{ id := getJsonD kvs "id" (.str "")
              timestamp := ts
              level := lv
              message := getJsonD kvs "message" (.str "")
              serverName := getJsonD kvs "serverName" .null
              jobId := getJsonD kvs "jobId" .null
              executionId := getJsonD kvs "executionId" .null
              category := getJsonD kvs "category" .null
              correlationId := getJsonD kvs "correlationId" .null
              exception := getJsonD kvs "exception" .null
              properties := getJsonD kvs "properties" .null
              createdAt := some dt }, ?_, rfl⟩
    simp [LogEntry.fromDict, hts, hlv, getOptTs_present kvs _ s h hne, hp]
  · simp only [Server.fromDict]
    cases hst : getEnumD ServerStatus.ofValue kvs "status" "Unknown" with
    | none => simp [hst]
    | some st => simp [hst, getOptTs_present kvs _ s h hne, hp]
  · obtain ⟨st, hst⟩ := Option.isSome_iff_exists.mp hst
    refine ⟨{ serverName := getJsonD kvs "serverName" (.str "")
              displayName := getJsonD kvs "displayName" .null
              status := st
              agentVersion := getJsonD kvs "agentVersion" .null
              lastHeartbeat := some dt
              isActive := getJsonD kvs "isActive" (.bool true)
              ipAddress := getJsonD kvs "ipAddress" .null
              osInfo := getJsonD kvs "osInfo" .null }, ?_, rfl⟩
    simp [Server.fromDict, hst, getOptTs_present kvs _ s h hne, hp]
  · simp only [Execution.fromDict]
    cases hst : getEnumD ExecutionStatus.ofValue kvs "status" "Pending" with
    | none => simp [hst]
    | some st => simp [hst, getOptTs_present kvs _ s h hne, hp]
  · obtain ⟨st, hst⟩ := Option.isSome_iff_exists.mp hst
    obtain ⟨co, hco⟩ := Option.isSome_iff_exists.mp hco
    obtain ⟨tt, htt⟩ := Option.isSome_iff_exists.mp htt
    refine ⟨{ id := getJsonD kvs "id" (.str "")
              jobId := getJsonD kvs "jobId" (.str "")
              serverName := getJsonD kvs "serverName" (.str "")
              status := st
              startedAt := some dt
              completedAt := co
              durationMs := getJsonD kvs "durationMs" .null
              triggerType := tt
              triggeredBy := getJsonD kvs "triggeredBy" .null
              errorMessage := getJsonD kvs "errorMessage" .null
              outputMessage := getJsonD kvs "outputMessage" .null
              parameters := getJsonD kvs "parameters" .null }, ?_, rfl⟩
    simp [Execution.fromDict, hst, hco, htt,
      getOptTs_present kvs _ s h hne, hp]
  · simp only [AlertInstance.fromDict]
    cases hsv : getEnumD AlertSeverity.ofValue kvs "severity" "Warning" with
    | none => simp [hsv]
    | some sev => simp [hsv, getTsD_present now kvs _ s h hne, hp]
  · obtain ⟨sev, hsv⟩ := Option.isSome_iff_exists.mp hsv
    obtain ⟨ak, hak⟩ := Option.isSome_iff_exists.mp hak
    obtain ⟨rs, hrs⟩ := Option.isSome_iff_exists.mp hrs
    refine ⟨{ id := getJsonD kvs "id" (.str "")
              alertId := getJsonD kvs "alertId" (.str "")
              alertName := getJsonD kvs "alertName" (.str "")
              severity := sev
              triggeredAt := dt
              acknowledgedAt := ak
              resolvedAt := rs
              acknowledgedBy := getJsonD kvs "acknowledgedBy" .null
              resolvedBy := getJsonD kvs "resolvedBy" .null
              message := getJsonD kvs "message" .null }, ?_, rfl⟩
    simp [AlertInstance.fromDict, hsv, hak, hrs,
      getTsD_present now kvs _ s h hne, hp]

/-- Counterexample to C3 as stated: a `timestamp` key that is present
with the (unparsable) empty-string value does not fail deserialization —
the empty string is falsy, so `LogEntry.from_dict` silently substitutes
the current time. -/
theorem logEntry_empty_timestamp_defaults :
    (LogEntry.fromDict now0 (.obj [("timestamp", Json.str "")])).isSome =
      true := rfl

/-- Concrete instance of `timestamp_fields_iso8601`: a parsable
`timestamp` is carried into the record, and an unparsable non-empty
`lastHeartbeat` fails `Server.from_dict`. -/
theorem timestamp_fields_iso8601_witness :
    (∃ e, LogEntry.fromDict now0
        (.obj [("timestamp", Json.str "2024-05-06T07:08:09Z")]) = some e ∧
        e.timestamp = ⟨2024, 5, 6, 7, 8, 9, 0, true⟩) ∧
      Server.fromDict (.obj [("lastHeartbeat", Json.str "not-a-date")]) =
        none :=
  ⟨((timestamp_fields_iso8601 now0
      [("timestamp", Json.str "2024-05-06T07:08:09Z")]
      "2024-05-06T07:08:09Z" (by decide)).1 rfl).2 _ rfl rfl rfl,
   ((timestamp_fields_iso8601 now0
      [("lastHeartbeat", Json.str "not-a-date")] "not-a-date"
      (by decide)).2.2.1 rfl).1 rfl⟩

/-- The message the claims predict for an error response: the payload's
`detail` field when the payload is an object holding one, else the
generic per-status message. -/
def claimMsg (data : Option Json) (g : String) : Json :=
  match data with
  | some (.obj kvs) => (alookup kvs "detail").getD (.str g)
  | _ => .str g

/-- The field-level error mapping the claims predict for a 400 response:
the payload's `errors` value when truthy, else the empty object. -/
def claimErrors (data : Option Json) : Json :=
  match data with
  | some (.obj kvs) => pyOr ((alookup kvs "errors").getD .null) (.obj [])
  | _ => .obj []

/-- The retry-after value the claims predict for a 429 response. -/
def claimRetryAfter (headers : List (String × String)) : Option Int :=
  match alookup headers "Retry-After" with
  | none => none
  | some s => if s = "" then none else pythonInt s

/-- When every truthy payload is an object, the `detail`-or-generic
lookup of `_handle_response` never raises and computes `claimMsg`. -/
theorem detailOr_eq (data : Option Json) (g : String)
    (h1 : ∀ d, data = some d → d.truthy = true → ∃ kvs, d = Json.obj kvs) :
    detailOr data g = .ok (claimMsg data g) := by
  cases data with
  | none => rfl
  | some d =>
    by_cases ht : d.truthy = true
    · obtain ⟨kvs, rfl⟩ := h1 d rfl ht
      cases kvs with
      | nil => rfl
      | cons kv rest => rfl
    · have ht' : d.truthy = false := by revert ht; cases d.truthy <;> simp
      cases d with
      | obj kvs =>
        cases kvs with
        | nil => rfl
        | cons kv rest => simp [Json.truthy] at ht'
      | null => rfl
      | bool b => simp [detailOr, claimMsg, ht']
      | num n => simp [detailOr, claimMsg, ht']
      | str s => simp [detailOr, claimMsg, ht']
      | arr l => simp [detailOr, claimMsg, ht']

/-- Companion to `detailOr_eq` for the `errors` lookup of the 400
branch. -/
theorem errorsOf_eq (data : Option Json)
    (h1 : ∀ d, data = some d → d.truthy = true → ∃ kvs, d = Json.obj kvs) :
    ∃ e, errorsOf data = .ok e ∧ pyOr e (.obj []) = claimErrors data := by
  cases data with
  | none => exact ⟨.null, rfl, rfl⟩
  | some d =>
    by_cases ht : d.truthy = true
    · obtain ⟨kvs, rfl⟩ := h1 d rfl ht
      cases kvs with
      | nil => exact ⟨.null, rfl, rfl⟩
      | cons kv rest => exact ⟨_, rfl, rfl⟩
    · have ht' : d.truthy = false := by revert ht; cases d.truthy <;> simp
      cases d with
      | obj kvs =>
        cases kvs with
        | nil => exact ⟨.null, rfl, rfl⟩
        | cons kv rest => simp [Json.truthy] at ht'
      | null => exact ⟨.null, rfl, rfl⟩
      | bool b => exact ⟨.null, by simp [errorsOf, ht'], by simp [claimErrors, pyOr, Json.truthy]⟩
      | num n => exact ⟨.null, by simp [errorsOf, ht'], by simp [claimErrors, pyOr, Json.truthy]⟩
      | str s => exact ⟨.null, by simp [errorsOf, ht'], by simp [claimErrors, pyOr, Json.truthy]⟩
      | arr l => exact ⟨.null, by simp [errorsOf, ht'], by simp [claimErrors, pyOr, Json.truthy]⟩

theorem pythonInt_empty : pythonInt "" = none := rfl

/-- When any present non-empty `Retry-After` header parses as an
integer, the header conversion of the 429 branch never raises and
computes `claimRetryAfter`. -/
theorem retryAfterOf_eq (headers : List (String × String))
    (h2 : ∀ s, alookup headers "Retry-After" = some s → s ≠ "" →
      (pythonInt s).isSome = true) :
    retryAfterOf (alookup headers "Retry-After") =
      .ok (claimRetryAfter headers) := by
  cases hl : alookup headers "Retry-After" with
  | none => simp [retryAfterOf, claimRetryAfter, hl]
  | some s =>
    by_cases hs : s = ""
    · subst hs
      simp [retryAfterOf, claimRetryAfter, hl]
    · obtain ⟨k, hk⟩ := Option.isSome_iff_exists.mp (h2 s hl hs)
      simp [retryAfterOf, claimRetryAfter, hl, hs, hk]

/-- C1 (amended): `_handle_response` returns the decoded payload on
200/201, no payload on 204, and otherwise raises the taxonomy error
keyed to the status (400 ValidationError, 401 AuthenticationError,
403 AuthorizationError, 404 NotFoundError, 409 ConflictError,
429 RateLimitError, ≥500 ServerError, anything else base FMSError),
preferring the payload's `detail` as the message and falling back to the
generic per-status message — provided any truthy decoded payload is a
JSON object and, on a 429, any truthy `Retry-After` header parses as an
integer (otherwise an `AttributeError` / `ValueError` escapes instead:
see `handleResponse_429_badheader`). -/
theorem handle_response_taxonomy (r : Response)
    (h1 : ∀ d, r.data = some d → d.truthy = true → ∃ kvs, d = Json.obj kvs)
    (h2 : ∀ s, alookup r.headers "Retry-After" = some s → s ≠ "" →
      (pythonInt s).isSome = true) :
    ((r.status = 200 ∨ r.status = 201) → handleResponse r = .ok r.data) ∧
    (r.status = 204 → handleResponse r = .ok none) ∧
    (r.status = 400 → handleResponse r = .raised
      (.validationError (claimMsg r.data "Validation failed")
        (some r.status) r.data (claimErrors r.data))) ∧
    (r.status = 401 → handleResponse r = .raised
      (.authenticationError (claimMsg r.data "Authentication failed")
        (some r.status) r.data)) ∧
    (r.status = 403 → handleResponse r = .raised
      (.authorizationError (claimMsg r.data "Access denied")
        (some r.status) r.data)) ∧
    (r.status = 404 → handleResponse r = .raised
      (.notFoundError (claimMsg r.data "Resource not found")
        (some r.status) r.data)) ∧
    (r.status = 409 → handleResponse r = .raised
      (.conflictError (claimMsg r.data "Resource conflict")
        (some r.status) r.data)) ∧
    (r.status = 429 → handleResponse r = .raised
      (.rateLimitError (claimMsg r.data "Rate limit exceeded")
        (some r.status) r.data (claimRetryAfter r.headers))) ∧
    (r.status ≥ 500 → handleResponse r = .raised
      (.serverError (claimMsg r.data "Server error")
        (some r.status) r.data)) ∧
    (r.status ≠ 200 → r.status ≠ 201 → r.status ≠ 204 → r.status ≠ 400 →
      r.status ≠ 401 → r.status ≠ 403 → r.status ≠ 404 → r.status ≠ 409 →
      r.status ≠ 429 → r.status < 500 → handleResponse r = .raised
      (.fmsError (claimMsg r.data ("HTTP " ++ toString r.status))
        (some r.status) r.data)) := by
  have hdet : ∀ g, detailOr r.data g = .ok (claimMsg r.data g) :=
    fun g => detailOr_eq r.data g h1
  refine ⟨?_, ?_, ?_, ?_, ?_, ?_, ?_, ?_, ?_, ?_⟩
  · rintro (h | h) <;> simp [handleResponse, h]
  · intro h
    simp [handleResponse, h]
  · intro h
    obtain ⟨e0, he0, hpe⟩ := errorsOf_eq r.data h1
    simp [handleResponse, h, he0, hdet, ← hpe]
  · intro h
    simp [handleResponse, h, hdet]
  · intro h
    simp [handleResponse, h, hdet]
  · intro h
    simp [handleResponse, h, hdet]
  · intro h
    simp [handleResponse, h, hdet]
  · intro h
    simp [handleResponse, h, hdet, retryAfterOf_eq r.headers h2]
  · intro h
    have h200 : r.status ≠ 200 := by omega
    have h201 : r.status ≠ 201 := by omega
    have h204 : r.status ≠ 204 := by omega
    have h400 : r.status ≠ 400 := by omega
    have h401 : r.status ≠ 401 := by omega
    have h403 : r.status ≠ 403 := by omega
    have h404 : r.status ≠ 404 := by omega
    have h409 : r.status ≠ 409 := by omega
    have h429 : r.status ≠ 429 := by omega
    simp [handleResponse, hdet, h, h200, h201, h204, h400, h401, h403, h404,
      h409, h429]
  · intro h200 h201 h204 h400 h401 h403 h404 h409 h429 hlt
    have hnge : ¬ r.status ≥ 500 := by omega
    simp [handleResponse, hdet, h200, h201, h204, h400, h401, h403, h404,
      h409, h429, hnge]

/-- Counterexample to C1 as stated: a 429 response whose `Retry-After`
header is present but not an integer does not raise the taxonomy's
RateLimitError — `int("abc")` raises a bare `ValueError` that escapes
`_handle_response`. -/
theorem handleResponse_429_badheader :
    handleResponse ⟨429, [("Retry-After", "abc")], none⟩ =
      .pyError .valueError := rfl

/-- Concrete instance of `handle_response_taxonomy`: a 404 response with
body holding detail "Job not found" raises a NotFoundError carrying
exactly that message and status 404. -/
theorem handle_response_taxonomy_witness :
    handleResponse
        ⟨404, [], some (.obj [("detail", Json.str "Job not found")])⟩ =
      .raised (.notFoundError (.str "Job not found") (some 404)
        (some (.obj [("detail", Json.str "Job not found")]))) := by
  have h := handle_response_taxonomy
    ⟨404, [], some (.obj [("detail", Json.str "Job not found")])⟩
    (by
      intro d hd ht
      injection hd with h'
      exact ⟨_, h'.symm⟩)
    (by
      intro s hs hne
      simp [alookup] at hs)
  exact (h.2.2.2.2.2.1 rfl).trans rfl

/-- Counterexample to C8 as stated: not every 429 response raises a
RateLimitError. A 429 whose body JSON-decodes to a (truthy) string makes
`data.get("detail", …)` raise a bare `AttributeError` that escapes
`_handle_response`, even though the `Retry-After` header carries the
integer 30. -/
theorem handleResponse_429_string_body :
    handleResponse ⟨429, [("Retry-After", "30")], some (.str "oops")⟩ =
      .pyError .attributeError := rfl

/-- C8 (amended): on a 429 response whose truthy decoded payload (if
any) is a JSON object, `_handle_response` raises a RateLimitError whose
retry-after equals the integer value of the `Retry-After` header when
that header is present with an integer value, and is `None` when the
header is absent; a truthy non-object payload instead raises a bare
`AttributeError` that escapes the taxonomy (see
`handleResponse_429_string_body`). -/
theorem handle_response_retry_after (r : Response)
    (h1 : ∀ d, r.data = some d → d.truthy = true → ∃ kvs, d = Json.obj kvs)
    (h429 : r.status = 429) :
    (alookup r.headers "Retry-After" = none →
      ∃ m, handleResponse r =
        .raised (.rateLimitError m (some r.status) r.data none)) ∧
    (∀ s k, alookup r.headers "Retry-After" = some s → pythonInt s = some k →
      ∃ m, handleResponse r =
        .raised (.rateLimitError m (some r.status) r.data (some k))) := by
  have hdet := detailOr_eq r.data "Rate limit exceeded" h1
  constructor
  · intro hl
    exact ⟨claimMsg r.data "Rate limit exceeded",
      by simp [handleResponse, h429, hdet, hl, retryAfterOf]⟩
  · intro s k hl hk
    have hs : s ≠ "" := by
      intro he
      rw [he, pythonInt_empty] at hk
      exact nomatch hk
    exact ⟨claimMsg r.data "Rate limit exceeded",
      by simp [handleResponse, h429, hdet, hl, retryAfterOf, hs, hk]⟩

/-- Concrete instance of `handle_response_retry_after`: header
`Retry-After: 30` yields retry-after 30; no header yields none. -/
theorem handle_response_retry_after_witness :
    (∃ m, handleResponse ⟨429, [("Retry-After", "30")], none⟩ =
      .raised (.rateLimitError m (some 429) none (some 30))) ∧
    (∃ m, handleResponse ⟨429, [], none⟩ =
      .raised (.rateLimitError m (some 429) none none)) :=
  ⟨(handle_response_retry_after ⟨429, [("Retry-After", "30")], none⟩
      (fun _ hd => nomatch hd) rfl).2 "30" 30 rfl rfl,
   (handle_response_retry_after ⟨429, [], none⟩
      (fun _ hd => nomatch hd) rfl).1 rfl⟩

theorem logLevel_ofValue_of_member (e : LogLevel) :
    LogLevel.ofValue e.value = some e :=
  enumOfValue_value _ _ (by decide) (by decide) e

theorem logLevel_ofValue_unrecognized (s : String)
    (h : ∀ e : LogLevel, e.value ≠ s) : LogLevel.ofValue s = none :=
  enumOfValue_none _ _ s h

theorem serverStatus_ofValue_of_member (e : ServerStatus) :
    ServerStatus.ofValue e.value = some e :=
  enumOfValue_value _ _ (by decide) (by decide) e

theorem serverStatus_ofValue_unrecognized (s : String)
    (h : ∀ e : ServerStatus, e.value ≠ s) : ServerStatus.ofValue s = none :=
  enumOfValue_none _ _ s h

theorem jobPriority_ofValue_of_member (e : JobPriority) :
    JobPriority.ofValue e.value = some e :=
  enumOfValue_value _ _ (by decide) (by decide) e

theorem jobPriority_ofValue_unrecognized (s : String)
    (h : ∀ e : JobPriority, e.value ≠ s) : JobPriority.ofValue s = none :=
  enumOfValue_none _ _ s h

theorem triggerType_ofValue_of_member (e : TriggerType) :
    TriggerType.ofValue e.value = some e :=
  enumOfValue_value _ _ (by decide) (by decide) e

theorem triggerType_ofValue_unrecognized (s : String)
    (h : ∀ e : TriggerType, e.value ≠ s) : TriggerType.ofValue s = none :=
  enumOfValue_none _ _ s h

theorem executionStatus_ofValue_of_member (e : ExecutionStatus) :
    ExecutionStatus.ofValue e.value = some e :=
  enumOfValue_value _ _ (by decide) (by decide) e

theorem executionStatus_ofValue_unrecognized (s : String)
    (h : ∀ e : ExecutionStatus, e.value ≠ s) : ExecutionStatus.ofValue s = none :=
  enumOfValue_none _ _ s h

/-- C2 (amended): for `LogClient.create`, `ServerClient.heartbeat`,
`JobClient.register`, `ExecutionClient.start` and
`ExecutionClient.complete`, passing an enum member and passing its raw
string yield the same request, and an unrecognized raw string raises an
enum `ValueError` before any request is issued. `LogClient.search` also
treats a member and its raw string alike, but it does not validate a raw
string: an unrecognized level is issued to the server as the `level`
query parameter (see `logClient_search_no_validation`). -/
theorem subclient_enum_arguments :
    (∀ (sn now msg : String) (jb ei cat cid exc prp : Json) (lv : LogLevel),
      createRequest sn now msg (.inl lv) jb ei cat cid exc prp =
        createRequest sn now msg (.inr lv.value) jb ei cat cid exc prp) ∧
    (∀ (sn av : String) (si : Json) (st : ServerStatus),
      heartbeatRequest sn (.inl st) av si =
        heartbeatRequest sn (.inr st.value) av si) ∧
    (∀ (sn jid dn : String) (ds sc tm tg : Json) (p : JobPriority),
      registerRequest sn jid dn ds sc (.inl p) tm tg =
        registerRequest sn jid dn ds sc (.inr p.value) tm tg) ∧
    (∀ (sn : String) (eu : Option String) (jid : String)
        (tb : Option String) (pa : Json) (tt : TriggerType),
      startRequest sn eu jid (.inl tt) tb pa =
        startRequest sn eu jid (.inr tt.value) tb pa) ∧
    (∀ (eid : String) (om em : Json) (st : ExecutionStatus),
      completeRequest eid (.inl st) om em =
        completeRequest eid (.inr st.value) om em) ∧
    (∀ (snO jO : Option String) (sd ed : Option DateTime) (p ps : Int)
        (lv : LogLevel),
      searchRequest snO jO (some (.inl lv)) sd ed p ps =
        searchRequest snO jO (some (.inr lv.value)) sd ed p ps) ∧
    (∀ s, (∀ e : LogLevel, e.value ≠ s) →
      ∀ (sn now msg : String) (jb ei cat cid exc prp : Json),
      createRequest sn now msg (.inr s) jb ei cat cid exc prp =
        .error .valueError) ∧
    (∀ s, (∀ e : ServerStatus, e.value ≠ s) → ∀ (sn av : String) (si : Json),
      heartbeatRequest sn (.inr s) av si = .error .valueError) ∧
    (∀ s, (∀ e : JobPriority, e.value ≠ s) →
      ∀ (sn jid dn : String) (ds sc tm tg : Json),
      registerRequest sn jid dn ds sc (.inr s) tm tg = .error .valueError) ∧
    (∀ s, (∀ e : TriggerType, e.value ≠ s) →
      ∀ (sn : String) (eu : Option String) (jid : String)
        (tb : Option String) (pa : Json),
      startRequest sn eu jid (.inr s) tb pa = .error .valueError) ∧
    (∀ s, (∀ e : ExecutionStatus, e.value ≠ s) →
      ∀ (eid : String) (om em : Json),
      completeRequest eid (.inr s) om em = .error .valueError) ∧
    (∀ (snO jO : Option String) (sd ed : Option DateTime) (p ps : Int)
        (s : String),
      ("level", Json.str s) ∈
        (requestParams (searchRequest snO jO (some (.inr s)) sd ed p ps).params).getD []) := by
  refine ⟨?_, ?_, ?_, ?_, ?_, ?_, ?_, ?_, ?_, ?_, ?_, ?_⟩
  · intro sn now msg jb ei cat cid exc prp lv
    simp [createRequest, resolveEnum, logLevel_ofValue_of_member]
  · intro sn av si st
    simp [heartbeatRequest, resolveEnum, serverStatus_ofValue_of_member]
  · intro sn jid dn ds sc tm tg p
    simp [registerRequest, resolveEnum, jobPriority_ofValue_of_member]
  · intro sn eu jid tb pa tt
    simp [startRequest, resolveEnum, triggerType_ofValue_of_member]
  · intro eid om em st
    simp [completeRequest, resolveEnum, executionStatus_ofValue_of_member]
  · intro snO jO sd ed p ps lv
    simp [searchRequest, searchLevelParam]
  · intro s hs sn now msg jb ei cat cid exc prp
    simp only [createRequest, resolveEnum, logLevel_ofValue_unrecognized s hs]
    rfl
  · intro s hs sn av si
    simp only [heartbeatRequest, resolveEnum, serverStatus_ofValue_unrecognized s hs]
    rfl
  · intro s hs sn jid dn ds sc tm tg
    simp only [registerRequest, resolveEnum, jobPriority_ofValue_unrecognized s hs]
    rfl
  · intro s hs sn eu jid tb pa
    simp only [startRequest, resolveEnum, triggerType_ofValue_unrecognized s hs]
    rfl
  · intro s hs eid om em
    simp only [completeRequest, resolveEnum, executionStatus_ofValue_unrecognized s hs]
    rfl
  · intro snO jO sd ed p ps s
    simp [searchRequest, requestParams, searchLevelParam, List.mem_filter,
      isNotNone]

/-- Counterexample to C2 as stated: `LogClient.search` with the
unrecognized raw level "Bogus" raises no enum-validation error — the
request is built and issued with the raw string as the `level`
parameter. -/
theorem logClient_search_no_validation :
    searchRequest none none (some (Sum.inr "Bogus")) none none 1 50 =
      { method := "GET"
        endpoint := "logs/search"
        params := some
          [("serverName", Json.null), ("jobId", Json.null),
           ("level", Json.str "Bogus"), ("startDate", Json.null),
           ("endDate", Json.null), ("page", Json.num 1),
           ("pageSize", Json.num 50)]
        data := none } := rfl

/-- Concrete instance of `subclient_enum_arguments`: creating a log with
the unrecognized raw level "NotALevel" fails with the enum error before
any request is built. -/
theorem subclient_enum_arguments_witness :
    createRequest "srv" "2024-01-01T00:00:00" "msg" (.inr "NotALevel")
        Json.null Json.null Json.null Json.null Json.null Json.null =
      .error .valueError :=
  subclient_enum_arguments.2.2.2.2.2.2.1 "NotALevel" (by decide)
    "srv" "2024-01-01T00:00:00" "msg" .null .null .null .null .null .null
